import Mathlib

/-!
Verification of the letterboxd recommendation backend.

Shallow embedding of the Python sources (`app.py`, `data_manager.py`,
`scrap.py`).  The persistent store is modelled as explicit lists of
users and ratings, the SQL queries of `get_user_data_efficiently` as
pure list computations, Python's stable `sort(..., reverse=True)` as a
stable insertion sort under the descending-by-score order, floats as
rationals, and the signal-based timeout as an explicit interrupt oracle
threaded through an `Except` computation.
-/

namespace Letterbesd

/-- One row of the `ratings` table, joined with usernames and titles:
(username, title, score). -/
structure Rating where
  user : String
  title : String
  score : ℚ
  deriving DecidableEq

/-- The persistent store: the `users` table and the `ratings` table
(titles live inside the rating rows; the `movies` table carries no
further information used by the flow). -/
structure Store where
  users : List String
  ratings : List Rating
  deriving DecidableEq

/-- Descending order on (title, score) pairs, comparing scores.  This is
the order of `ORDER BY ... DESC` and of Python's
`sort(key=..., reverse=True)`. -/
def byScoreDesc (a b : String × ℚ) : Prop := b.2 ≤ a.2

instance instDecByScoreDesc : DecidableRel byScoreDesc :=
  fun a b => inferInstanceAs (Decidable (b.2 ≤ a.2))

instance instTotalByScoreDesc : IsTotal (String × ℚ) byScoreDesc :=
  ⟨fun a b => le_total b.2 a.2⟩

instance instTransByScoreDesc : IsTrans (String × ℚ) byScoreDesc :=
  ⟨fun _ _ _ h1 h2 => le_trans h2 h1⟩

/-- The rows of the ratings table belonging to user `u`, projected to
(title, score) — the raw content behind `query_user`. -/
def userRatingRows (st : Store) (u : String) : List (String × ℚ) :=
  (st.ratings.filter (fun r => r.user = u)).map (fun r => (r.title, r.score))

/-- `query_user` of `get_user_data_efficiently`:
`SELECT title, rating ... WHERE username = u ORDER BY rating DESC LIMIT 20`. -/
def userMovies (st : Store) (u : String) : List (String × ℚ) :=
  (List.insertionSort byScoreDesc (userRatingRows st u)).take 20

/-- The distinct titles occurring in the ratings table, in first
occurrence order (the grouping keys of `GROUP BY m.title`). -/
def distinctTitles (st : Store) : List String :=
  st.ratings.foldl (fun acc r => if r.title ∈ acc then acc else acc ++ [r.title]) []

/-- All scores given to title `t` by anyone. -/
def titleScores (st : Store) (t : String) : List ℚ :=
  (st.ratings.filter (fun r => r.title = t)).map (fun r => r.score)

/-- `query_popular` of `get_user_data_efficiently`:
`SELECT title, AVG(rating) ... GROUP BY title HAVING COUNT(rating) >= 2
ORDER BY AVG(rating) DESC LIMIT 15`. -/
def popularMovies (st : Store) : List (String × ℚ) :=
  let grouped := (distinctTitles st).filter (fun t => 2 ≤ (titleScores st t).length)
  let avgs := grouped.map (fun t => (t, (titleScores st t).sum / ((titleScores st t).length : ℚ)))
  (List.insertionSort byScoreDesc avgs).take 15

/-- The `data_dict` built by `get_user_data_efficiently`. -/
structure UserData where
  user_movies : List (String × ℚ)
  popular_movies : List (String × ℚ)
  deriving DecidableEq

/-- Outcome of `get_user_data_efficiently` (the `(data_dict, status)`
pair).  `dbError` is the `except Exception` branch (app.py:296-298) that
swallows any exception raised inside the function's try block —
including a SIGALRM `TimeoutError` — and returns `(None, "error")`. -/
inductive FetchResult where
  | found (d : UserData)
  | userNotFound
  | insufficientData
  | dbError
  deriving DecidableEq

/-- `get_user_data_efficiently` (app.py:246-298): check user existence,
run the two queries, signal `insufficient_data` when the user has no
rated movies. -/
def get_user_data_efficiently (st : Store) (u : String) : FetchResult :=
  if u ∈ st.users then
    let um := userMovies st u
    if um.isEmpty then .insufficientData
    else .found ⟨um, popularMovies st⟩
  else .userNotFound

/-- The user's rating tendency as classified in
`simple_recommendation_algorithm`. -/
inductive Tendency where
  | high
  | low
  | neutral
  deriving DecidableEq

/-- `user_avg` of `simple_recommendation_algorithm` (3.0 for an empty
list). -/
def userAvgOf (um : List (String × ℚ)) : ℚ :=
  if 0 < um.length then (um.map Prod.snd).sum / (um.length : ℚ) else 3

/-- `user_tendency`: "high" iff strictly more than half of the user's
ratings are `>= 4.0`. -/
def tendencyOf (um : List (String × ℚ)) : Tendency :=
  if 0 < um.length then
    (if um.length < 2 * ((um.map Prod.snd).filter (fun r => 4 ≤ r)).length
      then .high else .low)
  else .neutral

/-- The per-candidate score of `simple_recommendation_algorithm`: base
score is the average rating, multiplied by the similarity bonus
(1.2 / 1.1), the tendency bonus (1.15 / 1.1) and the high-rating bonus
(1.05), exactly as the chain of `if`/`elif` in app.py:328-346. -/
def bonusScore (user_avg : ℚ) (tendency : Tendency) (avg_rating : ℚ) : ℚ :=
  let s0 := avg_rating
  let s1 := if |avg_rating - user_avg| < 1/2 then s0 * (6/5)
            else if |avg_rating - user_avg| < 1 then s0 * (11/10) else s0
  let s2 := if tendency = .high ∧ 4 ≤ avg_rating then s1 * (23/20)
            else if tendency = .low ∧ avg_rating ≤ 7/2 then s1 * (11/10) else s1
  if 9/2 ≤ avg_rating then s2 * (21/20) else s2

/-- `simple_recommendation_algorithm` (app.py:300-357): keep the popular
movies the user has not watched, score them, and sort by score
descending (Python's stable sort). -/
def simple_recommendation_algorithm (d : UserData) : List (String × ℚ) :=
  let user_avg := userAvgOf d.user_movies
  let tendency := tendencyOf d.user_movies
  let watched := d.user_movies.map Prod.fst
  let recs := (d.popular_movies.filter (fun p => p.1 ∉ watched)).map
    (fun p => (p.1, bonusScore user_avg tendency p.2))
  List.insertionSort byScoreDesc recs

/-- A structured response of `gerar_recomendacoes`: its status, its two
message strings, the `mode` metadata field ("" when the source omits
it), and the ordered `recomendacoes` association list (a Python dict in
insertion order). -/
structure Resp where
  status : String
  message : String
  mode : String
  recs : List (String × ℚ)
  deriving DecidableEq

/-- `quick_fallback` (app.py:365-389): the fixed degraded-mode response
with ten well-known items and static scores. -/
def quick_fallback : Resp where
  status := "success"
  message := "Recomendações rápidas geradas (modo de emergência)"
  mode := "fallback"
  recs := [("The Shawshank Redemption", 93/10), ("The Godfather", 92/10),
           ("Pulp Fiction", 89/10), ("Fight Club", 88/10), ("Forrest Gump", 88/10),
           ("The Matrix", 87/10), ("Goodfellas", 87/10),
           ("The Silence of the Lambs", 86/10), ("Interstellar", 86/10),
           ("The Departed", 85/10)]

/-- The success response (app.py:474-499): the algorithm's ranked list is
sorted once more and truncated to the top 5. -/
def successResp (d : UserData) : Resp where
  status := "success"
  message := "Recomendações geradas com sucesso"
  mode := "ultra_fast"
  recs := (List.insertionSort byScoreDesc (simple_recommendation_algorithm d)).take 5

/-- The terminal user-not-found response (app.py:421-433). -/
def notFoundResp : Resp where
  status := "user_not_found"
  message := "O usuário não foi encontrado no banco de dados ou não existe no Letterboxd. Verifique o nome."
  mode := ""
  recs := []

/-- The insufficient-data response (app.py:436-448); note its message
demands ten ratings. -/
def insufficientResp : Resp where
  status := "insufficient_data"
  message := "É necessário ter pelo menos 10 avaliações para gerar recomendações"
  mode := ""
  recs := []

/-- The status-"error" response (app.py:450-463), taken when the fetch
reports the "error" status or a `None` dataset — in particular when a
`TimeoutError` was swallowed inside `get_user_data_efficiently`. -/
def errorResp : Resp where
  status := "error"
  message := "Ocorreu um erro ao buscar dados do banco de dados"
  mode := ""
  recs := []

/-- The `user_cache` dict: key, payload and write timestamp.  A Python
dict write overwrites, which the cons-plus-first-match-lookup below
reproduces. -/
abbrev Cache := List (String × UserData × ℚ)

/-- First entry of the cache whose key is `u`. -/
def cacheLookup : Cache → String → Option (UserData × ℚ)
  | [], _ => none
  | (k, d, ts) :: rest, u => if k = u then some (d, ts) else cacheLookup rest u

/-- `CACHE_EXPIRY = 300` seconds (app.py:42). -/
def CACHE_EXPIRY : ℚ := 300

/-- The cache-read guard of `gerar_recomendacoes` (app.py:394): the
entry is served only when it exists and `now - timestamp < CACHE_EXPIRY`. -/
def cacheGet (c : Cache) (u : String) (now : ℚ) : Option UserData :=
  match cacheLookup c u with
  | some (d, ts) => if now - ts < CACHE_EXPIRY then some d else none
  | none => none

/-- A cache write (app.py:404): store the dataset with the current
timestamp, overwriting any previous entry for the key. -/
def cachePut (c : Cache) (u : String) (d : UserData) (now : ℚ) : Cache :=
  (u, d, now) :: c

/-- The external side of onboarding: whether a username resolves on
Letterboxd, and the (title, optional star rating) pairs its scrape
yields. -/
structure World where
  validOnLetterboxd : String → Bool
  scrapedFilms : String → List (String × Option ℚ)

/-- Effect of a successful `scrap` run (scrap.py:179-256) on the store:
`insert_user` adds the username if absent, and `insert_rating` appends
one row per rated film unless the (user, title) pair is already rated
(unrated films only touch the movies table). -/
def scrapInsert (st : Store) (u : String) (films : List (String × Option ℚ)) : Store :=
  { users := if u ∈ st.users then st.users else st.users ++ [u]
  , ratings := films.foldl (fun rows f =>
      match f.2 with
      | some sc =>
        if rows.any (fun r => r.user = u ∧ r.title = f.1) then rows
        else rows ++ [⟨u, f.1, sc⟩]
      | none => rows) st.ratings }

/-- `adicionar_usuario` (app.py:215-244): succeed immediately when the
user is already stored; otherwise verify the username externally and
scrape.  `scrap` raises (so the function returns failure) when the
scrape yields no films at all. -/
def adicionar_usuario (w : World) (st : Store) (u : String) : Bool × Store :=
  if u ∈ st.users then (true, st)
  else if w.validOnLetterboxd u = false then (false, st)
  else if (w.scrapedFilms u).isEmpty then (false, st)
  else (true, scrapInsert st u (w.scrapedFilms u))

/-- `get_user_data_efficiently` with its exception semantics: when the
SIGALRM fires inside the function's try block (interrupt point 3), the
`except Exception` at app.py:296-298 swallows the `TimeoutError` and the
`(None, "error")` outcome is returned instead of propagating. -/
def get_user_data_timed (i : Option ℕ) (st : Store) (u : String) : FetchResult :=
  if i = some 3 then .dbError else get_user_data_efficiently st u

/-- `adicionar_usuario` with its exception semantics: when the SIGALRM
fires inside one of the guarded blocks — the database check
(app.py:219-230) or the scrap run (app.py:235-244) — the
`except Exception` handler swallows the `TimeoutError` and the function
reports failure (interrupt point 7). -/
def adicionar_usuario_timed (i : Option ℕ) (w : World) (st : Store) (u : String) :
    Bool × Store :=
  if i = some 7 then (false, st) else adicionar_usuario w st u

/-- The body of `gerar_recomendacoes` (app.py:391-501) as an `Except`
computation.  `i = some k` is the interrupt oracle: the single SIGALRM
`TimeoutError` fires when program point `k` of the execution is reached.
An `.error ()` outcome models the exception escaping the try block to
the `except TimeoutError` handler (app.py:503-505); a `TimeoutError`
that an inner `except Exception` swallows surfaces as an ordinary value
instead.  Points: 0 — before the cache check; 1 — on the cache-hit
path; 2 — after the cache miss, before the inner DB try (app.py:401);
3 — inside `get_user_data_efficiently`'s try block (see
`get_user_data_timed`), whose swallowed outcome `.dbError` takes the
status-"error" branch of app.py:450-463; 4 — the cache write inside the
inner DB try, whose `except Exception` (app.py:409-412) returns
`quick_fallback` directly; 5 — the processing and formatting after the
inner try; 6 — inside `verify_letterboxd_user`, where the
`TimeoutError` is not a `requests.RequestException` and propagates
uncaught; 7 — inside `adicionar_usuario`'s guarded blocks (see
`adicionar_usuario_timed`), which fail and take the `user_not_found`
branch.  The recursive retry (app.py:418) calls the full function,
whose own handler is the inline `match`; fuel `0` marks a computation
that would recurse deeper than the model follows. -/
def gerarBody (w : World) (i : Option ℕ) :
    ℕ → Store → Cache → String → ℚ → Except Unit (Option (Resp × Cache))
  | 0, _, _, _, _ => .ok none
  | n + 1, st, c, u, now =>
    if i = some 0 then .error () else
    match cacheGet c u now with
    | some d => if i = some 1 then .error () else .ok (some (successResp d, c))
    | none =>
      if i = some 2 then .error () else
      match get_user_data_timed i st u with
      | .dbError => .ok (some (errorResp, c))
      | .found d =>
        if i = some 4 then .ok (some (quick_fallback, c))
        else if i = some 5 then .error ()
        else .ok (some (successResp d, cachePut c u d now))
      | .userNotFound =>
        if i = some 6 then .error () else
        match adicionar_usuario_timed i w st u with
        | (true, st') =>
          .ok (match gerarBody w i n st' c u now with
               | .error _ => some (quick_fallback, c)
               | .ok r => r)
        | (false, _) => .ok (some (notFoundResp, c))
      | .insufficientData => .ok (some (insufficientResp, c))

/-- `gerar_recomendacoes`: run the body and convert a `TimeoutError`
escaping the try block into the `quick_fallback` response
(app.py:503-505). -/
def gerar_recomendacoes (w : World) (i : Option ℕ) (fuel : ℕ) (st : Store)
    (c : Cache) (u : String) (now : ℚ) : Option (Resp × Cache) :=
  match gerarBody w i fuel st c u now with
  | .error _ => some (quick_fallback, c)
  | .ok r => r

/-- `RATE_LIMIT_WINDOW = 60` seconds (app.py:37). -/
def RATE_WINDOW : ℚ := 60

/-- `RATE_LIMIT_MAX_REQUESTS = 10` (app.py:38). -/
def RATE_MAX : ℕ := 10

/-- The pruning step of `obter_recomendacoes` (app.py:531): keep only the
instants with `now - t < RATE_LIMIT_WINDOW`. -/
def pruneRequests (now : ℚ) (ts : List ℚ) : List ℚ :=
  ts.filter (fun t => now - t < RATE_WINDOW)

/-- Admission control of `obter_recomendacoes` (app.py:526-551): prune,
reject when the remaining count reaches `RATE_MAX`, append the current
instant otherwise.  Returns (accepted?, new per-client list). -/
def allowRequest (now : ℚ) (ts : List ℚ) : Bool × List ℚ :=
  let pruned := pruneRequests now ts
  if RATE_MAX ≤ pruned.length then (false, pruned) else (true, pruned ++ [now])

/-- Run a sequence of requests from one client at the given instants,
collecting each admission verdict. -/
def simulateRequests (times : List ℚ) : List Bool × List ℚ :=
  times.foldl (fun acc t =>
    let r := allowRequest t acc.2
    (acc.1 ++ [r.1], r.2)) ([], [])

/-- One row of the rating table as `data_manager.py` and `scrap.py`
store it: by internal ids. -/
structure RatingRow where
  user_id : ℕ
  movie_id : ℕ
  rating : ℚ
  deriving DecidableEq

/-- `DataManager.add_rating` (data_manager.py:104-121): overwrite the
score of the first row with the same (user, movie) pair; append a new
row when none matches. -/
def add_rating : List RatingRow → ℕ → ℕ → ℚ → List RatingRow
  | [], u, m, sc => [⟨u, m, sc⟩]
  | row :: rest, u, m, sc =>
    if row.user_id = u ∧ row.movie_id = m then ⟨u, m, sc⟩ :: rest
    else row :: add_rating rest u m sc

/-- `insert_rating` (scrap.py:145-166): do nothing when a row with the
same (user, movie) pair exists; insert otherwise. -/
def insert_rating (rows : List RatingRow) (u m : ℕ) (sc : ℚ) : List RatingRow :=
  if rows.any (fun r => r.user_id = u ∧ r.movie_id = m) then rows
  else rows ++ [⟨u, m, sc⟩]

/-- Invariant: no two rows share a (user, movie) pair. -/
def NoDupPair (rows : List RatingRow) : Prop :=
  rows.Pairwise (fun a b => a.user_id ≠ b.user_id ∨ a.movie_id ≠ b.movie_id)

/-- The dataset of the spec's worked example: A rates X=5, Y=4; B rates
X=4, Y=5, Z=3. -/
def storeC1 : Store :=
  ⟨["A", "B"],
   [⟨"A", "X", 5⟩, ⟨"A", "Y", 4⟩, ⟨"B", "X", 4⟩, ⟨"B", "Y", 5⟩, ⟨"B", "Z", 3⟩]⟩

/-- The `data_dict` the store queries produce for target user A on
`storeC1`: Z is filtered out of the popular list by
`HAVING COUNT(r.rating) >= 2` because only B rated it. -/
def dataC1 : UserData :=
  ⟨[("X", 5), ("Y", 4)], [("X", 9/2), ("Y", 9/2)]⟩

/-- A store on which the no-seen-items property fails: user a has 21
ratings, so `LIMIT 20` drops the lowest-rated one (t21), which is
popular enough (two raters) to come back as a recommendation. -/
def storeC2 : Store :=
  ⟨["a", "b"],
   [⟨"a", "t01", 5⟩, ⟨"a", "t02", 5⟩, ⟨"a", "t03", 5⟩, ⟨"a", "t04", 5⟩,
    ⟨"a", "t05", 5⟩, ⟨"a", "t06", 5⟩, ⟨"a", "t07", 5⟩, ⟨"a", "t08", 5⟩,
    ⟨"a", "t09", 5⟩, ⟨"a", "t10", 5⟩, ⟨"a", "t11", 5⟩, ⟨"a", "t12", 5⟩,
    ⟨"a", "t13", 5⟩, ⟨"a", "t14", 5⟩, ⟨"a", "t15", 5⟩, ⟨"a", "t16", 5⟩,
    ⟨"a", "t17", 5⟩, ⟨"a", "t18", 5⟩, ⟨"a", "t19", 5⟩, ⟨"a", "t20", 5⟩,
    ⟨"a", "t21", 1⟩, ⟨"b", "t21", 5⟩]⟩

/-- The twenty titles `LIMIT 20` retains for user a on `storeC2`. -/
def topTwentyC2 : List (String × ℚ) :=
  [("t01", 5), ("t02", 5), ("t03", 5), ("t04", 5), ("t05", 5), ("t06", 5),
   ("t07", 5), ("t08", 5), ("t09", 5), ("t10", 5), ("t11", 5), ("t12", 5),
   ("t13", 5), ("t14", 5), ("t15", 5), ("t16", 5), ("t17", 5), ("t18", 5),
   ("t19", 5), ("t20", 5)]

/-- The `data_dict` for user a on `storeC2`: t21 is gone from the user
list but survives as the only popular title (average (1+5)/2 = 3). -/
def dataC2 : UserData := ⟨topTwentyC2, [("t21", 3)]⟩

/-- A small well-behaved store shared by several witnesses: a rates X=5;
b and c rate Z=3. -/
def storeW : Store :=
  ⟨["a", "b", "c"], [⟨"a", "X", 5⟩, ⟨"b", "Z", 3⟩, ⟨"c", "Z", 3⟩]⟩

/-- The `data_dict` for user a on `storeW`. -/
def dataW : UserData := ⟨[("X", 5)], [("Z", 3)]⟩

/-- An external world in which no username resolves and every scrape is
empty. -/
def worldEmpty : World := ⟨fun _ => false, fun _ => []⟩

/-!  Evaluation helpers for the worked example of C1. -/

lemma storeC1_userMovies : userMovies storeC1 "A" = [("X", 5), ("Y", 4)] := by decide

lemma storeC1_grouped :
    (distinctTitles storeC1).filter (fun t => 2 ≤ (titleScores storeC1 t).length)
      = ["X", "Y"] := by decide

lemma storeC1_titleScoresX : titleScores storeC1 "X" = [5, 4] := by decide

lemma storeC1_titleScoresY : titleScores storeC1 "Y" = [4, 5] := by decide

lemma storeC1_popular : popularMovies storeC1 = [("X", 9/2), ("Y", 9/2)] := by
  rw [popularMovies]
  simp only [storeC1_grouped, List.map_cons, List.map_nil, storeC1_titleScoresX,
    storeC1_titleScoresY]
  norm_num [List.insertionSort, List.orderedInsert, byScoreDesc]

lemma storeC1_fetch : get_user_data_efficiently storeC1 "A" = .found dataC1 := by
  rw [get_user_data_efficiently, if_pos (show "A" ∈ storeC1.users by decide)]
  simp only [storeC1_userMovies, storeC1_popular, List.isEmpty_cons, Bool.false_eq_true,
    if_false, dataC1]

lemma dataC1_alg : simple_recommendation_algorithm dataC1 = [] := by
  simp [simple_recommendation_algorithm, dataC1, List.insertionSort]

/-- C1: the spec's worked example fails on the code.  On the dataset
{A: X=5, Y=4; B: X=4, Y=5, Z=3} with target A, the engine does NOT
produce Z scored 3.3: the popular-movies query keeps only titles with
at least two ratings, so Z (rated only by B) is never a candidate and
the ranked list is empty. -/
theorem C1_counterexample :
    get_user_data_efficiently storeC1 "A" = .found dataC1
    ∧ simple_recommendation_algorithm dataC1 = []
    ∧ ¬ ("Z" ∈ (simple_recommendation_algorithm dataC1).map Prod.fst)
    ∧ simple_recommendation_algorithm dataC1 ≠ [("Z", 33/10)] := by
  refine ⟨storeC1_fetch, dataC1_alg, ?_, ?_⟩ <;> simp [dataC1_alg]

/-- C1 (amended): on the dataset {A: X=5, Y=4; B: X=4, Y=5, Z=3} with
target A, the engine returns an empty ranked list — Z is excluded by the
`HAVING COUNT(r.rating) >= 2` popularity threshold (only B rated it) and
X, Y are already seen — so the final response carries no
recommendations. -/
theorem C1_amended :
    get_user_data_efficiently storeC1 "A" = .found dataC1
    ∧ simple_recommendation_algorithm dataC1 = []
    ∧ (successResp dataC1).recs = [] := by
  refine ⟨storeC1_fetch, dataC1_alg, ?_⟩
  simp [successResp, dataC1_alg, List.insertionSort]

/-!  Rating-insert invariants (C3). -/

lemma mem_add_rating {rows : List RatingRow} {u m : ℕ} {sc : ℚ} {x : RatingRow}
    (hx : x ∈ add_rating rows u m sc) : x ∈ rows ∨ x = ⟨u, m, sc⟩ := by
  induction rows with
  | nil =>
    rw [add_rating] at hx
    right
    simpa using hx
  | cons row rest ih =>
    rw [add_rating] at hx
    by_cases h : row.user_id = u ∧ row.movie_id = m
    · rw [if_pos h] at hx
      rcases List.mem_cons.mp hx with h1 | h2
      · right; exact h1
      · left; exact List.mem_cons_of_mem _ h2
    · rw [if_neg h] at hx
      rcases List.mem_cons.mp hx with h1 | h2
      · left; exact h1 ▸ List.mem_cons_self _ _
      · rcases ih h2 with h3 | h3
        · left; exact List.mem_cons_of_mem _ h3
        · right; exact h3

lemma noDupPair_add_rating {rows : List RatingRow} {u m : ℕ} {sc : ℚ}
    (h : NoDupPair rows) : NoDupPair (add_rating rows u m sc) := by
  induction rows with
  | nil => simp [add_rating, NoDupPair]
  | cons row rest ih =>
    rcases List.pairwise_cons.mp h with ⟨hrow, hrest⟩
    rw [NoDupPair, add_rating]
    by_cases hm : row.user_id = u ∧ row.movie_id = m
    · rw [if_pos hm]
      refine List.pairwise_cons.mpr ⟨fun b hb => ?_, hrest⟩
      have hb2 := hrow b hb
      rw [show (⟨u, m, sc⟩ : RatingRow).user_id = u from rfl,
        show (⟨u, m, sc⟩ : RatingRow).movie_id = m from rfl, ← hm.1, ← hm.2]
      exact hb2
    · rw [if_neg hm]
      refine List.pairwise_cons.mpr ⟨fun b hb => ?_, ih hrest⟩
      rcases mem_add_rating hb with h1 | h1
      · exact hrow b h1
      · subst h1
        exact not_and_or.mp hm

lemma add_rating_filter {rows : List RatingRow} {u m : ℕ} {sc : ℚ}
    (h : NoDupPair rows) :
    (add_rating rows u m sc).filter (fun r => r.user_id = u ∧ r.movie_id = m)
      = [⟨u, m, sc⟩] := by
  induction rows with
  | nil => simp [add_rating]
  | cons row rest ih =>
    rcases List.pairwise_cons.mp h with ⟨hrow, hrest⟩
    rw [add_rating]
    by_cases hm : row.user_id = u ∧ row.movie_id = m
    · rw [if_pos hm]
      have hnone : ∀ b ∈ rest, ¬(b.user_id = u ∧ b.movie_id = m) := by
        intro b hb hbm
        rcases hrow b hb with h1 | h1
        · exact h1 (hm.1.trans hbm.1.symm)
        · exact h1 (hm.2.trans hbm.2.symm)
      have hfilter : rest.filter (fun r => decide (r.user_id = u ∧ r.movie_id = m)) = [] :=
        List.filter_eq_nil_iff.mpr (by simpa using hnone)
      simp only [List.filter_cons, hfilter]
      simp only [decide_eq_true_eq, and_self, if_pos]
    · rw [if_neg hm]
      simp only [List.filter_cons, decide_eq_true_eq, hm, if_false]
      exact ih hrest

lemma noDupPair_insert_rating {rows : List RatingRow} {u m : ℕ} {sc : ℚ}
    (h : NoDupPair rows) : NoDupPair (insert_rating rows u m sc) := by
  rw [insert_rating]
  by_cases ha : rows.any (fun r => decide (r.user_id = u ∧ r.movie_id = m)) = true
  · rw [if_pos ha]; exact h
  · rw [if_neg ha]
    rw [NoDupPair, List.pairwise_append]
    refine ⟨h, List.pairwise_singleton _ _, fun a hha b hb => ?_⟩
    rcases List.mem_singleton.mp hb with rfl
    have := List.any_eq_false.mp (Bool.eq_false_iff.mpr ha) a hha
    simpa using not_and_or.mp (by simpa using this)

/-- C3: counterexample — writing through `insert_rating` for a pair that
already has a stored rating does NOT overwrite the score: inserting
(user 1, movie 1, score 3) over an existing score 5 leaves the store
unchanged. -/
theorem C3_counterexample :
    insert_rating [⟨1, 1, 5⟩] 1 1 3 = [⟨1, 1, 5⟩]
    ∧ insert_rating [⟨1, 1, 5⟩] 1 1 3 ≠ [⟨1, 1, 3⟩] := by
  constructor <;> decide

/-- C3 (amended): both rating-insert operations preserve the at-most-one
rating per (user, item) invariant and never create a duplicate record,
but only `DataManager.add_rating` overwrites the stored score; `scrap`'s
`insert_rating` leaves an existing rating unchanged (it only inserts
when the pair is absent). -/
theorem C3_amended : ∀ (rows : List RatingRow) (u m : ℕ) (sc : ℚ),
    (NoDupPair rows → NoDupPair (add_rating rows u m sc))
    ∧ (NoDupPair rows → NoDupPair (insert_rating rows u m sc))
    ∧ (NoDupPair rows →
        (add_rating rows u m sc).filter (fun r => r.user_id = u ∧ r.movie_id = m)
          = [⟨u, m, sc⟩])
    ∧ (rows.any (fun r => r.user_id = u ∧ r.movie_id = m) = true →
        insert_rating rows u m sc = rows) := by
  intro rows u m sc
  refine ⟨noDupPair_add_rating, noDupPair_insert_rating, add_rating_filter, fun ha => ?_⟩
  rw [insert_rating, if_pos ha]

/-- Witness for C3_amended at a concrete store. -/
theorem C3_amended_witness :
    NoDupPair (add_rating [⟨1, 1, 5⟩] 1 1 3)
    ∧ insert_rating [⟨1, 1, 5⟩] 1 1 3 = [⟨1, 1, 5⟩] :=
  ⟨(C3_amended [⟨1, 1, 5⟩] 1 1 3).1 (by rw [NoDupPair]; decide),
   (C3_amended [⟨1, 1, 5⟩] 1 1 3).2.2.2 (by decide)⟩

/-!  The no-seen-items property (C2). -/

/-- Any title in the algorithm's ranked list is absent from the
`user_movies` list it was given (the in-memory `user_watched` check). -/
lemma alg_titles_not_watched (d : UserData) (t : String)
    (ht : t ∈ (simple_recommendation_algorithm d).map Prod.fst) :
    t ∉ d.user_movies.map Prod.fst := by
  have hperm : List.Perm (simple_recommendation_algorithm d)
      ((d.popular_movies.filter (fun p => p.1 ∉ d.user_movies.map Prod.fst)).map
        (fun p => (p.1, bonusScore (userAvgOf d.user_movies) (tendencyOf d.user_movies) p.2))) := by
    rw [simple_recommendation_algorithm]
    exact List.perm_insertionSort _ _
  have ht2 := (hperm.map Prod.fst).mem_iff.mp ht
  rw [List.map_map] at ht2
  rcases List.mem_map.mp ht2 with ⟨p, hp, hpt⟩
  rcases List.mem_filter.mp hp with ⟨_, hcond⟩
  have hnot : p.1 ∉ d.user_movies.map Prod.fst := of_decide_eq_true hcond
  rw [← hpt]
  exact hnot

/-- Titles of the final top-5 list are titles of the algorithm's
list. -/
lemma successResp_recs_titles_sub (d : UserData) :
    ((successResp d).recs.map Prod.fst) ⊆
      ((simple_recommendation_algorithm d).map Prod.fst) := by
  intro t ht
  have h1 : (successResp d).recs ⊆
      List.insertionSort byScoreDesc (simple_recommendation_algorithm d) :=
    (List.take_sublist _ _).subset
  have h2 := List.map_subset Prod.fst h1 ht
  exact ((List.perm_insertionSort byScoreDesc _).map Prod.fst).mem_iff.mp h2

lemma storeC2_userMovies : userMovies storeC2 "a" = topTwentyC2 := by decide

lemma storeC2_grouped :
    (distinctTitles storeC2).filter (fun t => 2 ≤ (titleScores storeC2 t).length)
      = ["t21"] := by decide

lemma storeC2_titleScores : titleScores storeC2 "t21" = [1, 5] := by decide

lemma storeC2_popular : popularMovies storeC2 = [("t21", 3)] := by
  rw [popularMovies]
  simp only [storeC2_grouped, List.map_cons, List.map_nil, storeC2_titleScores]
  norm_num [List.insertionSort, List.orderedInsert]

lemma storeC2_fetch : get_user_data_efficiently storeC2 "a" = .found dataC2 := by
  rw [get_user_data_efficiently, if_pos (show "a" ∈ storeC2.users by decide)]
  simp only [storeC2_userMovies, storeC2_popular, topTwentyC2, List.isEmpty_cons,
    Bool.false_eq_true, if_false, dataC2]

lemma dataC2_avg : userAvgOf dataC2.user_movies = 5 := by
  rw [userAvgOf]
  norm_num [dataC2, topTwentyC2, List.length_cons, List.sum_cons]

lemma dataC2_tendency : tendencyOf dataC2.user_movies = .high := by decide

lemma dataC2_alg : simple_recommendation_algorithm dataC2 = [("t21", 3)] := by
  rw [simple_recommendation_algorithm]
  simp only [dataC2_avg, dataC2_tendency]
  have hne : Tendency.high ≠ Tendency.low := by decide
  norm_num [dataC2, topTwentyC2, bonusScore, hne, List.insertionSort, List.orderedInsert,
    List.mem_cons, List.not_mem_nil, decide_eq_true_eq]

lemma dataC2_successRecs : (successResp dataC2).recs = [("t21", 3)] := by
  simp only [successResp]
  rw [dataC2_alg]
  simp [List.insertionSort, List.orderedInsert]

/-- C2: counterexample — for a user with 21 ratings, the `LIMIT 20` in
the user query drops the lowest-rated item (t21) from the watched set,
and the final ranked output recommends t21 even though the user already
rated it. -/
theorem C2_counterexample :
    get_user_data_efficiently storeC2 "a" = .found dataC2
    ∧ "t21" ∈ ((successResp dataC2).recs.map Prod.fst)
    ∧ "t21" ∈ ((userRatingRows storeC2 "a").map Prod.fst) := by
  refine ⟨storeC2_fetch, ?_, by decide⟩
  rw [dataC2_successRecs]
  simp

/-- C2 (amended): provided the target user has at most 20 stored
ratings, neither the algorithm's ranked list nor the final top-5 output
contains an item the user has already rated. -/
theorem C2_amended : ∀ (st : Store) (u t : String),
    (userRatingRows st u).length ≤ 20 →
    (t ∈ ((successResp ⟨userMovies st u, popularMovies st⟩).recs.map Prod.fst) ∨
     t ∈ ((simple_recommendation_algorithm ⟨userMovies st u, popularMovies st⟩).map Prod.fst)) →
    t ∉ ((userRatingRows st u).map Prod.fst) := by
  intro st u t hlen ht
  have halg : t ∈ (simple_recommendation_algorithm
      ⟨userMovies st u, popularMovies st⟩).map Prod.fst := by
    rcases ht with h | h
    · exact successResp_recs_titles_sub _ h
    · exact h
  have hnot := alg_titles_not_watched _ _ halg
  intro hrated
  apply hnot
  show t ∈ (userMovies st u).map Prod.fst
  rw [userMovies, List.take_of_length_le
    (by rw [(List.perm_insertionSort byScoreDesc (userRatingRows st u)).length_eq]; exact hlen)]
  exact ((List.perm_insertionSort byScoreDesc (userRatingRows st u)).map Prod.fst).mem_iff.mpr hrated

/-!  Evaluation helpers for the shared witness store. -/

lemma storeW_userMovies : userMovies storeW "a" = [("X", 5)] := by decide

lemma storeW_grouped :
    (distinctTitles storeW).filter (fun t => 2 ≤ (titleScores storeW t).length)
      = ["Z"] := by decide

lemma storeW_titleScores : titleScores storeW "Z" = [3, 3] := by decide

lemma storeW_popular : popularMovies storeW = [("Z", 3)] := by
  rw [popularMovies]
  simp only [storeW_grouped, List.map_cons, List.map_nil, storeW_titleScores]
  norm_num [List.insertionSort, List.orderedInsert]

lemma storeW_data :
    (⟨userMovies storeW "a", popularMovies storeW⟩ : UserData) = dataW := by
  rw [storeW_userMovies, storeW_popular]
  rfl

lemma storeW_fetch : get_user_data_efficiently storeW "a" = .found dataW := by
  rw [get_user_data_efficiently, if_pos (show "a" ∈ storeW.users by decide)]
  simp only [storeW_userMovies, storeW_popular, List.isEmpty_cons,
    Bool.false_eq_true, if_false, dataW]

lemma dataW_avg : userAvgOf dataW.user_movies = 5 := by
  rw [userAvgOf]
  norm_num [dataW, List.length_cons, List.sum_cons]

lemma dataW_tendency : tendencyOf dataW.user_movies = .high := by decide

lemma dataW_alg : simple_recommendation_algorithm dataW = [("Z", 3)] := by
  rw [simple_recommendation_algorithm]
  simp only [dataW_avg, dataW_tendency]
  have hne : Tendency.high ≠ Tendency.low := by decide
  norm_num [dataW, bonusScore, hne, List.insertionSort, List.orderedInsert,
    List.mem_cons, List.not_mem_nil, decide_eq_true_eq]

/-- Witness for C2_amended at the concrete store `storeW`. -/
theorem C2_amended_witness : ¬ ("Z" ∈ ((userRatingRows storeW "a").map Prod.fst)) :=
  C2_amended storeW "a" "Z" (by decide)
    (Or.inr (by rw [storeW_data, dataW_alg]; simp))

/-- C6: admission control first prunes instants older than the 60s
window, accepts iff the remaining count is strictly below 10, and
appends the current instant exactly on acceptance; concretely, the 11th
request within 60 seconds is rejected and a request 61 seconds after
the first is accepted. -/
theorem C6_admission : ∀ (now : ℚ) (ts : List ℚ),
    ((allowRequest now ts).1 = true ↔ (pruneRequests now ts).length < RATE_MAX)
    ∧ ((allowRequest now ts).2 =
        if (allowRequest now ts).1 = true
        then pruneRequests now ts ++ [now] else pruneRequests now ts)
    ∧ (simulateRequests [0, 6, 12, 18, 24, 30, 36, 42, 48, 54, 59]).1
        = [true, true, true, true, true, true, true, true, true, true, false]
    ∧ (simulateRequests [0, 61]).1 = [true, true] := by
  intro now ts
  refine ⟨?_, ?_, ?_, ?_⟩
  · rw [allowRequest]
    by_cases h : RATE_MAX ≤ (pruneRequests now ts).length
    · simp [h, Nat.not_lt.mpr h]
    · simp [h, Nat.lt_of_not_le h]
  · rw [allowRequest]
    by_cases h : RATE_MAX ≤ (pruneRequests now ts).length
    · simp [h]
    · simp [h]
  · norm_num [simulateRequests, allowRequest, pruneRequests, RATE_MAX, RATE_WINDOW,
      decide_eq_true_eq]
  · norm_num [simulateRequests, allowRequest, pruneRequests, RATE_MAX, RATE_WINDOW,
      decide_eq_true_eq]

/-- C9: on the success path the returned recommendation list has at most
5 items, is ordered by score descending, and together with the dropped
suffix is a permutation of all candidates, every dropped candidate
scoring no higher than any returned item (so the returned items are the
top-scoring candidates). -/
theorem C9_top5 : ∀ d : UserData,
    (successResp d).recs.length ≤ 5
    ∧ (successResp d).recs.Sorted byScoreDesc
    ∧ List.Perm ((successResp d).recs ++
        (List.insertionSort byScoreDesc (simple_recommendation_algorithm d)).drop 5)
        (simple_recommendation_algorithm d)
    ∧ ∀ a ∈ (successResp d).recs,
        ∀ b ∈ (List.insertionSort byScoreDesc (simple_recommendation_algorithm d)).drop 5,
          b.2 ≤ a.2 := by
  intro d
  have hsorted := List.sorted_insertionSort byScoreDesc (simple_recommendation_algorithm d)
  refine ⟨?_, ?_, ?_, ?_⟩
  · show (List.take 5 _).length ≤ 5
    rw [List.length_take]
    exact min_le_left _ _
  · exact List.Pairwise.sublist (List.take_sublist _ _) hsorted
  · show List.Perm (List.take 5 _ ++ List.drop 5 _) _
    rw [List.take_append_drop]
    exact List.perm_insertionSort _ _
  · have hs2 := hsorted
    rw [← List.take_append_drop 5
      (List.insertionSort byScoreDesc (simple_recommendation_algorithm d))] at hs2
    rcases List.pairwise_append.mp hs2 with ⟨_, _, hcross⟩
    exact fun a ha b hb => hcross a ha b hb

/-!  Flow lemmas shared by C4, C5, C7, C8 and C10. -/

lemma fetch_notFound_iff (st : Store) (u : String) :
    get_user_data_efficiently st u = .userNotFound ↔ u ∉ st.users := by
  simp only [get_user_data_efficiently]
  by_cases h : u ∈ st.users
  · rw [if_pos h]
    refine ⟨fun hcontr => ?_, fun hnot => absurd h hnot⟩
    by_cases he : (userMovies st u).isEmpty = true
    · rw [if_pos he] at hcontr; cases hcontr
    · rw [if_neg he] at hcontr; cases hcontr
  · rw [if_neg h]
    simp [h]

lemma fetch_found {st : Store} {u : String} (h : u ∈ st.users)
    (hne : userMovies st u ≠ []) :
    get_user_data_efficiently st u = .found ⟨userMovies st u, popularMovies st⟩ := by
  simp only [get_user_data_efficiently]
  rw [if_pos h, if_neg (by simpa [List.isEmpty_iff] using hne)]

lemma fetch_insufficient {st : Store} {u : String} (h : u ∈ st.users)
    (he : userMovies st u = []) :
    get_user_data_efficiently st u = .insufficientData := by
  simp only [get_user_data_efficiently]
  rw [if_pos h, if_pos (by simp [he])]

lemma adicionar_true_mem {w : World} {st st' : Store} {u : String}
    (h : adicionar_usuario w st u = (true, st')) : u ∈ st'.users := by
  rw [adicionar_usuario] at h
  split_ifs at h with h1 h2 h3
  · injection h with _ h5
    exact h5 ▸ h1
  · injection h with hb _
    cases hb
  · injection h with hb _
    cases hb
  · injection h with _ h5
    rw [← h5, scrapInsert]
    simp [h1]

lemma cacheGet_nil (u : String) (now : ℚ) : cacheGet [] u now = none := rfl

lemma get_user_data_timed_none (st : Store) (u : String) :
    get_user_data_timed none st u = get_user_data_efficiently st u := rfl

lemma adicionar_timed_none (w : World) (st : Store) (u : String) :
    adicionar_usuario_timed none w st u = adicionar_usuario w st u := rfl

lemma timed_notFound {i : Option ℕ} {st : Store} {u : String}
    (h : get_user_data_timed i st u = .userNotFound) :
    get_user_data_efficiently st u = .userNotFound := by
  rw [get_user_data_timed] at h
  by_cases h3 : i = some 3
  · rw [if_pos h3] at h
    cases h
  · rwa [if_neg h3] at h

lemma gerarBody_fuel_indep {st : Store} {u : String} (h : u ∈ st.users)
    (w : World) (i : Option ℕ) (c : Cache) (now : ℚ) (n m : ℕ) :
    gerarBody w i (n + 1) st c u now = gerarBody w i (m + 1) st c u now := by
  rw [gerarBody]
  rw [gerarBody]
  cases hc : cacheGet c u now with
  | some d => rfl
  | none =>
    cases hf : get_user_data_timed i st u with
    | found d => rfl
    | insufficientData => rfl
    | dbError => rfl
    | userNotFound =>
      exact absurd ((fetch_notFound_iff st u).mp (timed_notFound hf)) (not_not_intro h)

/-- C4: the onboarding retry is bounded — increasing the recursion budget
beyond 2 never changes the outcome of `gerar_recomendacoes` (the flow
re-enters itself at most once), the budget-2 run always produces a
response, and a failed onboarding of an absent user is terminal with the
`user_not_found` response. -/
theorem C4_retry_budget : ∀ (w : World) (st : Store) (c : Cache) (u : String)
    (now : ℚ) (n : ℕ),
    gerar_recomendacoes w none (n + 2) st c u now
      = gerar_recomendacoes w none 2 st c u now
    ∧ gerar_recomendacoes w none 2 st c u now ≠ none
    ∧ (u ∉ st.users → (adicionar_usuario w st u).1 = false →
        gerar_recomendacoes w none 2 st [] u now = some (notFoundResp, [])) := by
  intro w st c u now n
  refine ⟨?_, ?_, ?_⟩
  · rw [gerar_recomendacoes, gerar_recomendacoes]
    suffices hb : gerarBody w none (n + 2) st c u now = gerarBody w none 2 st c u now by
      rw [hb]
    show gerarBody w none (n + 1 + 1) st c u now = gerarBody w none (1 + 1) st c u now
    rw [gerarBody]
    rw [gerarBody]
    cases hc : cacheGet c u now with
    | some d => rfl
    | none =>
      cases hf : get_user_data_timed none st u with
      | found d => rfl
      | insufficientData => rfl
      | dbError => rfl
      | userNotFound =>
        cases ha : adicionar_usuario_timed none w st u with
        | mk ok st' =>
          cases ok with
          | false => rfl
          | true =>
            have ha' : adicionar_usuario w st u = (true, st') := by
              rwa [adicionar_timed_none] at ha
            have hmem := adicionar_true_mem ha'
            simp only [gerarBody_fuel_indep hmem w none c now n 0]
  · rw [gerar_recomendacoes, (show (2 : ℕ) = 1 + 1 by norm_num), gerarBody]
    cases hc : cacheGet c u now with
    | some d => simp
    | none =>
      cases hf : get_user_data_timed none st u with
      | found d => simp
      | insufficientData => simp
      | dbError => simp
      | userNotFound =>
        cases ha : adicionar_usuario_timed none w st u with
        | mk ok st' =>
          cases ok with
          | false => simp
          | true =>
            have ha' : adicionar_usuario w st u = (true, st') := by
              rwa [adicionar_timed_none] at ha
            have hmem := adicionar_true_mem ha'
            simp only []
            rw [(show (1 : ℕ) = 0 + 1 by norm_num), gerarBody, hc]
            cases hf2 : get_user_data_timed none st' u with
            | found d => simp
            | insufficientData => simp
            | dbError => simp
            | userNotFound =>
              exact absurd ((fetch_notFound_iff st' u).mp (timed_notFound hf2))
                (not_not_intro hmem)
  · intro hnot hfail
    have hfetch : get_user_data_efficiently st u = .userNotFound :=
      (fetch_notFound_iff st u).mpr hnot
    rw [gerar_recomendacoes, (show (2 : ℕ) = 1 + 1 by norm_num), gerarBody,
      cacheGet_nil, get_user_data_timed_none, hfetch]
    cases ha : adicionar_usuario_timed none w st u with
    | mk ok st' =>
      cases ok with
      | false => simp
      | true =>
        have ha' : adicionar_usuario w st u = (true, st') := by
          rwa [adicionar_timed_none] at ha
        rw [ha'] at hfail
        cases hfail

/-- Witness for C4_retry_budget: a user absent from the store and
invalid externally gets the terminal `user_not_found` response. -/
theorem C4_retry_witness :
    gerar_recomendacoes worldEmpty none 2 storeW [] "zzz" 0 = some (notFoundResp, []) :=
  (C4_retry_budget worldEmpty storeW [] "zzz" 0 0).2.2 (by decide) (by decide)

/-- C5: counterexample — a `TimeoutError` raised during the
recommendation computation does NOT always produce the fallback list:
fired inside `get_user_data_efficiently`'s try block (interrupt point 3)
it is swallowed by that function's `except Exception` and the flow
returns the status-"error" response of app.py:450-463; fired inside
`adicionar_usuario`'s guarded blocks (interrupt point 7) the flow
returns the terminal `user_not_found` response.  Neither response equals
`quick_fallback`. -/
theorem C5_counterexample :
    gerar_recomendacoes worldEmpty (some 3) 1 storeW [] "a" 0 = some (errorResp, [])
    ∧ errorResp ≠ quick_fallback
    ∧ errorResp.status = "error"
    ∧ gerar_recomendacoes worldEmpty (some 7) 1 storeW [] "zzz" 0 = some (notFoundResp, [])
    ∧ notFoundResp ≠ quick_fallback := by
  refine ⟨?_, by decide, rfl, ?_, by decide⟩
  · rw [gerar_recomendacoes, (show (1 : ℕ) = 0 + 1 by norm_num), gerarBody]
    simp [get_user_data_timed, cacheGet_nil]
  · rw [gerar_recomendacoes, (show (1 : ℕ) = 0 + 1 by norm_num), gerarBody]
    have hfetch : get_user_data_efficiently storeW "zzz" = .userNotFound := by decide
    simp [get_user_data_timed, adicionar_usuario_timed, cacheGet_nil, hfetch]

/-- C5 (amended): a `TimeoutError` that escapes the try block to
`gerar_recomendacoes`'s own `except TimeoutError` handler always yields
the fixed `quick_fallback` response — tagged mode "fallback", status
"success" (never a hard failure), with its 10 static items; but a
`TimeoutError` swallowed inside `get_user_data_efficiently` yields the
status-"error" response instead, and one swallowed inside
`adicionar_usuario`'s guarded blocks yields the terminal
`user_not_found` response — in every case a structured response, never
an unhandled failure. -/
theorem C5_amended : ∀ (w : World) (i : Option ℕ) (fuel : ℕ) (st : Store)
    (c : Cache) (u : String) (now : ℚ) (n : ℕ),
    (gerarBody w i fuel st c u now = .error () →
      gerar_recomendacoes w i fuel st c u now = some (quick_fallback, c))
    ∧ quick_fallback.mode = "fallback"
    ∧ quick_fallback.status = "success"
    ∧ quick_fallback.recs.length = 10
    ∧ (cacheGet c u now = none →
        gerar_recomendacoes w (some 3) (n + 1) st c u now = some (errorResp, c))
    ∧ errorResp.status = "error"
    ∧ (cacheGet c u now = none → u ∉ st.users →
        gerar_recomendacoes w (some 7) (n + 1) st c u now = some (notFoundResp, c)) := by
  intro w i fuel st c u now n
  refine ⟨fun h => by rw [gerar_recomendacoes, h], rfl, rfl, rfl,
    fun hc => ?_, rfl, fun hc hnot => ?_⟩
  · rw [gerar_recomendacoes, gerarBody, hc]
    simp [get_user_data_timed]
  · have hfetch : get_user_data_efficiently st u = .userNotFound :=
      (fetch_notFound_iff st u).mpr hnot
    rw [gerar_recomendacoes, gerarBody, hc]
    simp [get_user_data_timed, adicionar_usuario_timed, hfetch]

/-- Witness for C5_amended: the alarm firing at the very first program
point yields the fallback, and one firing inside the fetch window yields
the status-"error" response. -/
theorem C5_amended_witness :
    gerar_recomendacoes worldEmpty (some 0) 1 storeW [] "a" 0 = some (quick_fallback, [])
    ∧ gerar_recomendacoes worldEmpty (some 3) 1 storeW [] "a" 0 = some (errorResp, []) :=
  ⟨(C5_amended worldEmpty (some 0) 1 storeW [] "a" 0 0).1
    (by rw [(show (1 : ℕ) = 0 + 1 by norm_num), gerarBody, if_pos rfl]),
   (C5_amended worldEmpty (some 3) 1 storeW [] "a" 0 0).2.2.2.2.1 rfl⟩

/-- C7: a cache read returns the stored dataset iff an entry exists for
the key and `now - timestamp < CACHE_EXPIRY`; an entry written at `T` is
served at `T + EXPIRY - 1`, is a miss at `T + EXPIRY + 1`, and in the
flow the served entry short-circuits the store while the expired entry
triggers a fresh store read. -/
theorem C7_cache_contract : ∀ (c : Cache) (u : String) (now T : ℚ) (d d0 : UserData)
    (st : Store) (w : World),
    (cacheGet c u now = some d ↔
      ∃ ts, cacheLookup c u = some (d, ts) ∧ now - ts < CACHE_EXPIRY)
    ∧ cacheGet [(u, d0, T)] u (T + (CACHE_EXPIRY - 1)) = some d0
    ∧ cacheGet [(u, d0, T)] u (T + (CACHE_EXPIRY + 1)) = none
    ∧ gerar_recomendacoes w none 1 st [(u, d0, T)] u (T + (CACHE_EXPIRY - 1))
        = some (successResp d0, [(u, d0, T)])
    ∧ (u ∈ st.users → userMovies st u ≠ [] →
        gerar_recomendacoes w none 1 st [(u, d0, T)] u (T + (CACHE_EXPIRY + 1))
          = some (successResp ⟨userMovies st u, popularMovies st⟩,
              cachePut [(u, d0, T)] u ⟨userMovies st u, popularMovies st⟩
                (T + (CACHE_EXPIRY + 1)))) := by
  intro c u now T d d0 st w
  have h299 : T + (CACHE_EXPIRY - 1) - T < CACHE_EXPIRY := by
    rw [CACHE_EXPIRY]; ring_nf; norm_num
  have h301 : ¬(T + (CACHE_EXPIRY + 1) - T < CACHE_EXPIRY) := by
    rw [CACHE_EXPIRY]; ring_nf; norm_num
  have hserved : cacheGet [(u, d0, T)] u (T + (CACHE_EXPIRY - 1)) = some d0 := by
    simp only [cacheGet, cacheLookup, if_true]
    rw [if_pos h299]
  have hmiss : cacheGet [(u, d0, T)] u (T + (CACHE_EXPIRY + 1)) = none := by
    simp only [cacheGet, cacheLookup, if_true]
    rw [if_neg h301]
  refine ⟨⟨fun h => ?_, fun h => ?_⟩, hserved, hmiss, ?_, fun hmem hne => ?_⟩
  · cases hl : cacheLookup c u with
    | none =>
      simp only [cacheGet, hl] at h
      simp at h
    | some p =>
      obtain ⟨d1, ts⟩ := p
      simp only [cacheGet, hl] at h
      by_cases hcond : now - ts < CACHE_EXPIRY
      · rw [if_pos hcond] at h
        injection h with h2
        subst h2
        exact ⟨ts, rfl, hcond⟩
      · rw [if_neg hcond] at h
        cases h
  · rcases h with ⟨ts, hl, hcond⟩
    simp only [cacheGet, hl]
    rw [if_pos hcond]
  · rw [gerar_recomendacoes, (show (1 : ℕ) = 0 + 1 by norm_num), gerarBody, hserved]
    simp
  · have hfetch := fetch_found hmem hne
    rw [gerar_recomendacoes, (show (1 : ℕ) = 0 + 1 by norm_num), gerarBody, hmiss, get_user_data_timed_none, hfetch]
    simp

/-- Witness for C7_cache_contract at the concrete store `storeW`. -/
theorem C7_cache_witness :
    gerar_recomendacoes worldEmpty none 1 storeW [("a", dataW, 0)] "a" (0 + (CACHE_EXPIRY + 1))
      = some (successResp ⟨userMovies storeW "a", popularMovies storeW⟩,
          cachePut [("a", dataW, 0)] "a" ⟨userMovies storeW "a", popularMovies storeW⟩
            (0 + (CACHE_EXPIRY + 1))) :=
  (C7_cache_contract [] "a" 0 0 dataW dataW storeW worldEmpty).2.2.2.2
    (by decide) (by decide)

/-- C8: the flow is deterministic and idempotent — after a first call on
an unchanged store, a second call for the same target (served from the
cache it populated or from a fresh read) returns the very same response,
with identical items, scores and order. -/
theorem C8_idempotent : ∀ (w : World) (st : Store) (u : String) (t1 t2 : ℚ)
    (r1 : Resp) (c1 : Cache),
    u ∈ st.users →
    gerar_recomendacoes w none 2 st [] u t1 = some (r1, c1) →
    (gerar_recomendacoes w none 2 st c1 u t2).map (fun rc => rc.1) = some r1 := by
  intro w st u t1 t2 r1 c1 hmem h1
  by_cases hemp : userMovies st u = []
  · have hfetch := fetch_insufficient hmem hemp
    have hval : gerar_recomendacoes w none 2 st [] u t1 = some (insufficientResp, []) := by
      rw [gerar_recomendacoes, (show (2 : ℕ) = 1 + 1 by norm_num), gerarBody,
        cacheGet_nil, get_user_data_timed_none, hfetch]
      simp
    rw [hval] at h1
    injection h1 with h1'
    obtain ⟨hr, hc⟩ := Prod.mk.inj h1'
    subst hr
    subst hc
    rw [gerar_recomendacoes, (show (2 : ℕ) = 1 + 1 by norm_num), gerarBody,
      cacheGet_nil, get_user_data_timed_none, hfetch]
    simp
  · have hfetch := fetch_found hmem hemp
    have hval : gerar_recomendacoes w none 2 st [] u t1
        = some (successResp ⟨userMovies st u, popularMovies st⟩,
            [(u, ⟨userMovies st u, popularMovies st⟩, t1)]) := by
      rw [gerar_recomendacoes, (show (2 : ℕ) = 1 + 1 by norm_num), gerarBody,
        cacheGet_nil, get_user_data_timed_none, hfetch]
      simp [cachePut]
    rw [hval] at h1
    injection h1 with h1'
    obtain ⟨hr, hc⟩ := Prod.mk.inj h1'
    subst hr
    subst hc
    by_cases hfresh : t2 - t1 < CACHE_EXPIRY
    · have hhit : cacheGet [(u, (⟨userMovies st u, popularMovies st⟩ : UserData), t1)] u t2
          = some ⟨userMovies st u, popularMovies st⟩ := by
        simp only [cacheGet, cacheLookup, if_true]
        rw [if_pos hfresh]
      rw [gerar_recomendacoes, (show (2 : ℕ) = 1 + 1 by norm_num), gerarBody, hhit]
      simp
    · have hmiss : cacheGet [(u, (⟨userMovies st u, popularMovies st⟩ : UserData), t1)] u t2
          = none := by
        simp only [cacheGet, cacheLookup, if_true]
        rw [if_neg hfresh]
      rw [gerar_recomendacoes, (show (2 : ℕ) = 1 + 1 by norm_num), gerarBody, hmiss, get_user_data_timed_none, hfetch]
      simp

lemma storeW_flow : gerar_recomendacoes worldEmpty none 2 storeW [] "a" 0
    = some (successResp dataW, [("a", dataW, 0)]) := by
  rw [gerar_recomendacoes, (show (2 : ℕ) = 1 + 1 by norm_num), gerarBody,
    cacheGet_nil, get_user_data_timed_none, storeW_fetch]
  simp [cachePut]

/-- Witness for C8_idempotent at the concrete store `storeW`. -/
theorem C8_idempotent_witness :
    (gerar_recomendacoes worldEmpty none 2 storeW [("a", dataW, 0)] "a" 1).map
      (fun rc => rc.1) = some (successResp dataW) :=
  C8_idempotent worldEmpty storeW "a" 0 1 (successResp dataW) [("a", dataW, 0)]
    (by decide) storeW_flow

lemma userMovies_nil_iff (st : Store) (u : String) :
    userMovies st u = [] ↔ userRatingRows st u = [] := by
  rw [userMovies]
  constructor
  · intro h
    rcases List.take_eq_nil_iff.mp h with h20 | hs
    · exact absurd h20 (by norm_num)
    · have hlen := (List.perm_insertionSort byScoreDesc (userRatingRows st u)).length_eq
      rw [hs] at hlen
      exact List.eq_nil_of_length_eq_zero hlen.symm
  · intro h
    rw [h]
    rfl

/-- C10: with an empty cache, the flow answers `insufficient_data`
exactly when the target user exists but has zero stored ratings; any
user with at least one rating (in particular 1 to 9 of them) gets a
"success" response, although the insufficient-data message claims ten
ratings are required. -/
theorem C10_insufficient_iff : ∀ (w : World) (st : Store) (u : String) (now : ℚ),
    u ∈ st.users →
    (gerar_recomendacoes w none 2 st [] u now = some (insufficientResp, [])
      ↔ userRatingRows st u = [])
    ∧ (userRatingRows st u ≠ [] →
        (gerar_recomendacoes w none 2 st [] u now).map (fun rc => rc.1.status)
          = some "success")
    ∧ insufficientResp.status = "insufficient_data"
    ∧ insufficientResp.message =
        "É necessário ter pelo menos 10 avaliações para gerar recomendações" := by
  intro w st u now hmem
  refine ⟨⟨fun h => ?_, fun h => ?_⟩, fun hne => ?_, rfl, rfl⟩
  · by_contra hne
    have hum : userMovies st u ≠ [] := fun hc => hne ((userMovies_nil_iff st u).mp hc)
    have hfetch := fetch_found hmem hum
    rw [gerar_recomendacoes, (show (2 : ℕ) = 1 + 1 by norm_num), gerarBody,
      cacheGet_nil, get_user_data_timed_none, hfetch] at h
    simp [cachePut] at h
  · have hum : userMovies st u = [] := (userMovies_nil_iff st u).mpr h
    have hfetch := fetch_insufficient hmem hum
    rw [gerar_recomendacoes, (show (2 : ℕ) = 1 + 1 by norm_num), gerarBody,
      cacheGet_nil, get_user_data_timed_none, hfetch]
    simp
  · have hum : userMovies st u ≠ [] := fun hc => hne ((userMovies_nil_iff st u).mp hc)
    have hfetch := fetch_found hmem hum
    rw [gerar_recomendacoes, (show (2 : ℕ) = 1 + 1 by norm_num), gerarBody,
      cacheGet_nil, get_user_data_timed_none, hfetch]
    simp [successResp]

/-- Witness for C10_insufficient_iff at the concrete store `storeW`. -/
theorem C10_insufficient_witness :
    (gerar_recomendacoes worldEmpty none 2 storeW [] "a" 0).map
      (fun rc => rc.1.status) = some "success" :=
  (C10_insufficient_iff worldEmpty storeW "a" 0 (by decide)).2.1 (by decide)

end Letterbesd
